import Mathlib

/-!
Shallow embedding of the GlassServer licensing core (src/main.py and
src/webhooks_gumroad.py): license keys, activations, bearer tokens,
device tier records, the admin gate and the Gumroad license-verification
helper, together with theorems about the claimed properties.

SQLite tables are modelled as lists of typed rows; `SELECT ... LIMIT 1`
is `List.find?` (first match), `COUNT(*)` is `List.length` of a filter,
and `INSERT` appends.  Nondeterministic inputs of a request (current
time, the freshly generated token string) are passed in explicitly via
`Env`.  Environment configuration is a `Config` record.
-/

namespace GlassServer

/-- One row of the `users` table (the DeviceTierRecord). -/
structure UserRow where
  hwid : String
  tier : String
  maxWindows : Option Int
deriving Repr, DecidableEq

/-- One row of the `licenses` table (the KeyStore).  `revoked` is stored
as INTEGER 0/1 in SQLite; the code only ever writes 0 or 1, so it is a
`Bool` here. -/
structure LicenseRow where
  licenseKey : String
  tier : String
  maxConcurrent : Int
  maxActivations : Int
  revoked : Bool
deriving Repr, DecidableEq

/-- One row of the `license_activations` table (the ActivationLedger). -/
structure ActivationRow where
  licenseKey : String
  hwid : String
deriving Repr, DecidableEq

/-- One row of the `license_tokens` table.  `licenseKey` is NULLable
(legacy-prefix activations store NULL). -/
structure TokenRow where
  token : String
  licenseKey : Option String
  hwid : String
  tier : String
  createdAt : Int
  expiresAt : Option Int
  revoked : Bool
deriving Repr, DecidableEq

/-- The persistent store: the four tables of `_init_db`. -/
structure Store where
  users : List UserRow
  licenses : List LicenseRow
  activations : List ActivationRow
  tokens : List TokenRow
deriving Repr, DecidableEq

/-- Server configuration read from the environment in main.py. -/
structure Config where
  freeMaxWindows : Int
  starterMaxWindows : Int
  proMaxWindows : Int
  tokenTTLDays : Int
  adminSecret : String
  downloadUrlPro : String
  addonsUrl : String
deriving Repr, DecidableEq

/-- Per-request nondeterminism: the clock value `now()` and the string
produced by `secrets.token_urlsafe(32)`. -/
structure Env where
  now : Int
  fresh : String
deriving Repr, DecidableEq

/-- Python `str.strip()`: drop leading and trailing whitespace. -/
def pyStrip (str : String) : String :=
  ⟨((str.data.dropWhile Char.isWhitespace).reverse.dropWhile Char.isWhitespace).reverse⟩

/-- Python `str.upper()` (ASCII range, which covers every string the
server compares against). -/
def pyUpper (str : String) : String := ⟨str.data.map Char.toUpper⟩

/-- Python `str.lower()` (ASCII range). -/
def pyLower (str : String) : String := ⟨str.data.map Char.toLower⟩

/-- Python `str.startswith(p)`. -/
def pyStartsWith (str p : String) : Bool := p.data.isPrefixOf str.data

/-- Python `x or d` for strings (empty string is falsy). -/
def pyOrStr (x d : String) : String := if x = "" then d else x

/-- Python `x or d` for integers (0 is falsy). -/
def pyOrInt (x d : Int) : Int := if x = 0 then d else x

/-- Python `x or d` for an optional string (None and "" are falsy). -/
def pyOrOpt (x : Option String) (d : String) : String :=
  match x with
  | some v => if v = "" then d else v
  | none => d

/-- `str(row["tier"] or "pro").lower()` from main.py. -/
def normTier (t : String) : String := pyLower (pyOrStr t "pro")

/-- `SELECT * FROM licenses WHERE license_key=?` (first row). -/
def findLicense (s : Store) (k : String) : Option LicenseRow :=
  s.licenses.find? (fun r => r.licenseKey == k)

/-- `SELECT * FROM license_activations WHERE license_key=?` restricted to a key. -/
def activationsForL (a : List ActivationRow) (k : String) : List ActivationRow :=
  a.filter (fun r => r.licenseKey == k)

/-- Rows of the activation ledger belonging to key `k`. -/
def activationsFor (s : Store) (k : String) : List ActivationRow :=
  activationsForL s.activations k

/-- `SELECT 1 FROM license_activations WHERE license_key=? AND hwid=?` is non-empty. -/
def hasActivationL (a : List ActivationRow) (k h : String) : Bool :=
  (a.find? (fun r => r.licenseKey == k && r.hwid == h)).isSome

/-- The pair (key, hwid) already has a ledger row. -/
def hasActivation (s : Store) (k h : String) : Bool :=
  hasActivationL s.activations k h

/-- `_set_user_tier` from main.py: upsert of the device tier record.
With `maxWindows = none` an existing row keeps its stored override. -/
def setUserTier (s : Store) (hwid tier : String) (maxWindows : Option Int) : Store :=
  match s.users.find? (fun u => u.hwid == hwid) with
  | none =>
      { s with users := s.users ++ [{ hwid := hwid, tier := tier, maxWindows := maxWindows }] }
  | some _ =>
      { s with users := s.users.map (fun u =>
          if u.hwid == hwid then
            match maxWindows with
            | none => { u with tier := tier }
            | some w => { u with tier := tier, maxWindows := some w }
          else u) }

/-- `_issue_token` from main.py: insert a fresh token row and return the
token string.  The fresh high-entropy string is `env.fresh`. -/
def issueToken (cfg : Config) (env : Env) (s : Store) (licenseKey : Option String)
    (hwid tier : String) : String × Store :=
  let expiresAt : Option Int :=
    if cfg.tokenTTLDays > 0 then some (env.now + cfg.tokenTTLDays * 86400) else none
  (env.fresh,
    { s with tokens := s.tokens ++
        [{ token := env.fresh, licenseKey := licenseKey, hwid := hwid, tier := tier,
           createdAt := env.now, expiresAt := expiresAt, revoked := false }] })

/-- `now() > expires_at` with a NULLable expiry. -/
def expiredAt (nowT : Int) (e : Option Int) : Bool :=
  match e with
  | none => false
  | some x => decide (nowT > x)

/-- Result of `_validate_token`. -/
inductive ValidateCheck where
  | err (reason : String)
  | ok (tier : String)
deriving Repr, DecidableEq

/-- `_validate_token` from main.py: existence, revocation, hwid match,
expiry, in that order. -/
def validateToken (nowT : Int) (s : Store) (token hwid : String) : ValidateCheck :=
  match s.tokens.find? (fun t => t.token == token) with
  | none => .err "unknown_token"
  | some row =>
      if row.revoked = true then .err "revoked"
      else if hwid ≠ row.hwid then .err "hwid_mismatch"
      else if expiredAt nowT row.expiresAt then .err "expired"
      else .ok (normTier row.tier)

/-- Response of `POST /verify`. -/
structure VerifyResp where
  tier : String
  maxWindows : Int
deriving Repr, DecidableEq

/-- `verify` from main.py: device-record fast path, no token involved. -/
def verify (cfg : Config) (s : Store) (rawHwid : String) : VerifyResp :=
  let hwid := pyStrip rawHwid
  let row := s.users.find? (fun u => u.hwid == hwid)
  let tier := pyLower (match row with | some u => u.tier | none => "free")
  let maxw : Option Int := match row with | some u => u.maxWindows | none => none
  match maxw with
  | some w => { tier := tier, maxWindows := w }
  | none =>
      if tier = "starter" then { tier := "starter", maxWindows := cfg.starterMaxWindows }
      else if tier = "pro" then { tier := "pro", maxWindows := cfg.proMaxWindows }
      else { tier := "free", maxWindows := cfg.freeMaxWindows }

/-- Credential selected by `_require_admin`:
`_extract_bearer(request) or (secret_qs or "")`. -/
def credOf (bearer secretQs : Option String) : String :=
  pyOrOpt bearer (pyOrOpt secretQs "")

/-- Outcome of the admin gate. -/
inductive AdminCheck where
  | ok
  | httpError (status : Nat) (detail : String)
deriving Repr, DecidableEq

/-- `_require_admin` from main.py: 500 when no ADMIN_SECRET is configured,
403 when the supplied credential does not match. -/
def requireAdmin (adminSecret : String) (bearer secretQs : Option String) : AdminCheck :=
  if adminSecret = "" then .httpError 500 "ADMIN_SECRET not set"
  else if credOf bearer secretQs ≠ adminSecret then .httpError 403 "Forbidden"
  else .ok

/-- An `HTTPException(status_code, detail)` raised by a route. -/
structure HErr where
  status : Nat
  detail : String
deriving Repr, DecidableEq

/-- A route either returns a JSON body or raises an HTTPException. -/
inductive RouteResult (α : Type) where
  | ok (val : α)
  | error (e : HErr)
deriving Repr, DecidableEq

/-- Whether a route call returned a body (did not raise). -/
def RouteResult.isOk {α : Type} : RouteResult α → Bool
  | .ok _ => true
  | .error _ => false

/-- JSON body returned by `POST /license/activate` on success. -/
structure ActivateResp where
  ok : Bool
  tier : String
  token : String
  maxConcurrent : Int
  downloadUrl : String
  addonsUrl : String
deriving Repr, DecidableEq

/-- The newest non-revoked token row for (key, hwid):
`SELECT token FROM license_tokens WHERE license_key=? AND hwid=? AND revoked=0
 ORDER BY created_at DESC LIMIT 1`. -/
def latestTokenFor (ts : List TokenRow) (k h : String) : Option TokenRow :=
  (ts.filter (fun t => t.licenseKey == some k && t.hwid == h && !t.revoked)).foldl
    (fun acc t =>
      match acc with
      | none => some t
      | some b => if t.createdAt > b.createdAt then some t else some b) none

/-- `license_activate` from main.py.  Legacy "PRO-"/"START" prefixes are
handled before any KeyStore lookup; DB-backed keys go through lookup,
revocation check, activation-cap check, INSERT OR IGNORE into the
ledger, and token reuse-or-mint. -/
def licenseActivate (cfg : Config) (env : Env) (s : Store) (rawHwid rawKey : String) :
    RouteResult ActivateResp × Store :=
  let hwid := pyStrip rawHwid
  let key := pyUpper (pyStrip rawKey)
  if pyStartsWith key "PRO-" then
    let s1 := setUserTier s hwid "pro" none
    let ts := issueToken cfg env s1 none hwid "pro"
    (.ok { ok := true, tier := "pro", token := ts.1, maxConcurrent := cfg.proMaxWindows,
           downloadUrl := cfg.downloadUrlPro, addonsUrl := cfg.addonsUrl }, ts.2)
  else if pyStartsWith key "START" then
    let s1 := setUserTier s hwid "starter" none
    let ts := issueToken cfg env s1 none hwid "starter"
    (.ok { ok := true, tier := "starter", token := ts.1, maxConcurrent := cfg.starterMaxWindows,
           downloadUrl := "", addonsUrl := "" }, ts.2)
  else
    match findLicense s key with
    | none => (.error ⟨400, "invalid_key"⟩, s)
    | some lic =>
      if lic.revoked then (.error ⟨400, "revoked"⟩, s)
      else
        let used : Int := (activationsFor s key).length
        let exAct := hasActivation s key hwid
        if exAct = false ∧ pyOrInt lic.maxActivations 1 ≤ used then
          (.error ⟨403, "activation_limit_reached"⟩, s)
        else
          let s1 :=
            if exAct then s
            else { s with activations := s.activations ++ [{ licenseKey := key, hwid := hwid }] }
          let tier := normTier lic.tier
          let cap : Int :=
            if tier = "pro" then pyOrInt lic.maxConcurrent cfg.proMaxWindows
            else if tier = "starter" then pyOrInt lic.maxConcurrent cfg.starterMaxWindows
            else cfg.freeMaxWindows
          match latestTokenFor s1.tokens key hwid with
          | some trow =>
              (.ok { ok := true, tier := tier, token := trow.token, maxConcurrent := cap,
                     downloadUrl := if tier = "pro" then cfg.downloadUrlPro else "",
                     addonsUrl := if tier = "pro" then cfg.addonsUrl else "" }, s1)
          | none =>
              let ts := issueToken cfg env s1 (some key) hwid tier
              (.ok { ok := true, tier := tier, token := ts.1, maxConcurrent := cap,
                     downloadUrl := if tier = "pro" then cfg.downloadUrlPro else "",
                     addonsUrl := if tier = "pro" then cfg.addonsUrl else "" }, ts.2)

/-- JSON body returned by `POST /license/validate`, modelled as a record
of optional JSON keys; a key the route never emits stays `none`.  The
route emits ok/reason on failure and ok/tier/download_url/addons_url on
success; it never emits a max_windows key. -/
structure ValidateResp where
  ok : Bool
  reason : Option String := none
  tier : Option String := none
  downloadUrl : Option String := none
  addonsUrl : Option String := none
  maxWindows : Option Int := none
deriving Repr, DecidableEq

/-- `license_validate` from main.py: `_validate_token`, then on success an
opportunistic `_set_user_tier(hwid, tier)` refresh of the device record. -/
def licenseValidate (cfg : Config) (nowT : Int) (s : Store) (rawToken rawHwid : String) :
    ValidateResp × Store :=
  let hwid := pyStrip rawHwid
  let tok := pyStrip rawToken
  match validateToken nowT s tok hwid with
  | .err reason => ({ ok := false, reason := some reason }, s)
  | .ok tier =>
      let s1 := setUserTier s hwid tier none
      ({ ok := true, tier := some tier,
         downloadUrl := some (if tier = "pro" then cfg.downloadUrlPro else ""),
         addonsUrl := some (if tier = "pro" then cfg.addonsUrl else "") }, s1)

/-- JSON body returned by `POST /license/issue`. -/
structure IssueResp where
  ok : Bool
  key : String
  tier : String
  maxConcurrent : Int
  maxActivations : Int
deriving Repr, DecidableEq

/-- `license_issue` from main.py.  `newKey` stands for the output of
`_make_key(body.prefix)`; the admin gate runs first. -/
def licenseIssue (cfg : Config) (bearer secretQs : Option String) (newKey : String)
    (tier : String) (maxConcurrent maxActivations : Int) (s : Store) :
    RouteResult IssueResp × Store :=
  match requireAdmin cfg.adminSecret bearer secretQs with
  | .httpError st d => (.error ⟨st, d⟩, s)
  | .ok =>
      let s1 := { s with licenses := s.licenses ++
        [{ licenseKey := newKey, tier := pyLower tier, maxConcurrent := maxConcurrent,
           maxActivations := maxActivations, revoked := false }] }
      (.ok { ok := true, key := newKey, tier := pyLower tier,
             maxConcurrent := maxConcurrent, maxActivations := maxActivations }, s1)

/-- JSON body returned by `POST /token/revoke`. -/
structure RevokeResp where
  ok : Bool
  updated : Int
deriving Repr, DecidableEq

/-- `token_revoke` from main.py: admin gate, then
`UPDATE license_tokens SET revoked=1 WHERE token=?` returning
`cur.rowcount`.  SQLite's changes() counts every row matched by the
UPDATE, including rows whose revoked column already was 1, so the count
is the number of rows with this token, not the number of state
transitions. -/
def tokenRevoke (cfg : Config) (bearer secretQs : Option String) (s : Store)
    (rawToken : String) : RouteResult RevokeResp × Store :=
  match requireAdmin cfg.adminSecret bearer secretQs with
  | .httpError st d => (.error ⟨st, d⟩, s)
  | .ok =>
      let tok := pyStrip rawToken
      let matched : Int := (s.tokens.filter (fun t => t.token == tok)).length
      let s1 := { s with tokens := s.tokens.map (fun t =>
        if t.token == tok then { t with revoked := true } else t) }
      (.ok { ok := true, updated := matched }, s1)

/-- The nested license object of an introspection response. -/
structure LicenseInfo where
  licenseKeyPresent : Bool
  tier : Option String := none
  maxConcurrent : Option Int := none
  maxActivations : Option Int := none
  revoked : Option Bool := none
deriving Repr, DecidableEq

/-- JSON body returned by `POST /token/introspect`. -/
structure IntrospectResp where
  ok : Bool
  reason : Option String := none
  token : Option String := none
  tier : Option String := none
  hwid : Option String := none
  createdAt : Option Int := none
  expiresAt : Option Int := none
  ttlSeconds : Option Int := none
  revoked : Option Bool := none
  hwidMatch : Option Bool := none
  license : Option LicenseInfo := none
deriving Repr, DecidableEq

/-- `token_introspect` from main.py (read-only): admin gate, token row
lookup, TTL computation, optional hwid comparison, optional license
sub-record. -/
def tokenIntrospect (cfg : Config) (nowT : Int) (bearer secretQs : Option String)
    (s : Store) (rawToken : String) (rawHwid : Option String) :
    RouteResult IntrospectResp :=
  match requireAdmin cfg.adminSecret bearer secretQs with
  | .httpError st d => .error ⟨st, d⟩
  | .ok =>
      let tok := pyStrip rawToken
      let wantHwid := pyStrip (match rawHwid with | some h => h | none => "")
      match s.tokens.find? (fun t => t.token == tok) with
      | none => .ok { ok := false, reason := some "unknown_token" }
      | some row =>
          let ttl : Option Int :=
            match row.expiresAt with
            | none => none
            | some e => some (max 0 (e - nowT))
          let base : IntrospectResp :=
            { ok := true, token := some row.token, tier := some (normTier row.tier),
              hwid := some row.hwid, createdAt := some row.createdAt,
              expiresAt := row.expiresAt, ttlSeconds := ttl, revoked := some row.revoked }
          let base1 :=
            if wantHwid ≠ "" then { base with hwidMatch := some (wantHwid == row.hwid) } else base
          match row.licenseKey with
          | none => .ok base1
          | some lk =>
              if lk = "" then .ok base1
              else
                match findLicense s lk with
                | none => .ok { base1 with license := some { licenseKeyPresent := false } }
                | some lic =>
                    let info : LicenseInfo :=
                      { licenseKeyPresent := true, tier := some (normTier lic.tier),
                        maxConcurrent := some (pyOrInt lic.maxConcurrent 0),
                        maxActivations := some (pyOrInt lic.maxActivations 0),
                        revoked := some lic.revoked }
                    .ok { base1 with license := some info }

/-- A sequence of `POST /license/activate` calls against one raw key,
each call with its own clock value and fresh token string. -/
def activateMany (cfg : Config) (rawKey : String) :
    List (Env × String) → Store → Store × List (RouteResult ActivateResp)
  | [], s => (s, [])
  | c :: rest, s =>
      let rs := licenseActivate cfg c.1 s c.2 rawKey
      let rec2 := activateMany cfg rawKey rest rs.2
      (rec2.1, rs.1 :: rec2.2)

/-- Outcome of the outbound `httpx` POST to the Gumroad license
verification endpoint: either a response or a raised exception
(timeout, connection error, ...). -/
inductive NetOutcome where
  | resp (status : Nat) (success : Bool)
  | raised
deriving Repr, DecidableEq

/-- `_verify_license_if_present` from webhooks_gumroad.py.  Payload
fields are passed as strings, with "" standing for an absent or falsy
dict value. -/
def verifyLicenseIfPresent (skipValidation httpxAvail : Bool)
    (licenseKey productPermalink productId : String) (net : NetOutcome) : Bool :=
  if skipValidation then true
  else if licenseKey = "" ∨ httpxAvail = false then true
  else if productPermalink ≠ "" ∨ productId ≠ "" then
    match net with
    | .raised => true
    | .resp st success => decide (st = 200) && success
  else false

/-- The call site in `gumroad_webhook`:
`if not await _verify_license_if_present(payload): raise _bad(...)`. -/
def gumroadLicenseGate (verified : Bool) : RouteResult Unit :=
  if verified then .ok () else .error ⟨400, "License verification failed"⟩

/-! ## Theorems -/

/-- C2: `Validate(token, hwid)` applies its checks in the order
existence → revocation → hwid match → expiry, reporting the reason of
the first failing check, and returns ok with the stored tier when all
four checks pass. -/
theorem validate_check_order_C2 (nowT : Int) (s : Store) (token hwid : String) :
    (validateToken nowT s token hwid = .err "unknown_token" ↔
      s.tokens.find? (fun t => t.token == token) = none) ∧
    (∀ row, s.tokens.find? (fun t => t.token == token) = some row →
      ((validateToken nowT s token hwid = .err "revoked" ↔ row.revoked = true) ∧
       (validateToken nowT s token hwid = .err "hwid_mismatch" ↔
         row.revoked = false ∧ hwid ≠ row.hwid) ∧
       (validateToken nowT s token hwid = .err "expired" ↔
         row.revoked = false ∧ hwid = row.hwid ∧ expiredAt nowT row.expiresAt = true) ∧
       (validateToken nowT s token hwid = .ok (normTier row.tier) ↔
         row.revoked = false ∧ hwid = row.hwid ∧ expiredAt nowT row.expiresAt = false))) := by
  rcases h : s.tokens.find? (fun t => t.token == token) with _ | row
  · refine ⟨by simp [validateToken, h], ?_⟩
    intro row hr
    rw [h] at hr
    exact absurd hr (by simp)
  · have hv : validateToken nowT s token hwid =
        (if row.revoked = true then .err "revoked"
         else if hwid ≠ row.hwid then .err "hwid_mismatch"
         else if expiredAt nowT row.expiresAt then .err "expired"
         else .ok (normTier row.tier)) := by
      unfold validateToken
      rw [h]
    refine ⟨?_, ?_⟩
    · rw [hv]
      constructor
      · intro he
        by_cases hrev : row.revoked = true <;>
          by_cases hh : hwid = row.hwid <;>
          rcases hexp : expiredAt nowT row.expiresAt <;>
          simp [hrev, hh, hexp] at he
      · intro hnone
        rw [h] at hnone
        exact absurd hnone (by simp)
    · intro row' hr
      have hrr : row' = row := by
        rw [h] at hr
        exact (Option.some.inj hr).symm
      subst hrr
      rw [hv]
      by_cases hrev : row'.revoked = true <;>
        by_cases hh : hwid = row'.hwid <;>
        rcases hexp : expiredAt nowT row'.expiresAt <;>
        simp [hrev, hh, hexp]

/-- C6: the admin-guarded operations (license issue, token revoke, token
introspect) return a body only when the supplied bearer-or-query
credential equals the configured admin secret; with no admin secret
configured every call fails with the 500 server error, never silently
allowing. -/
theorem admin_gate_C6 (cfg : Config) (nowT : Int) (bearer secretQs : Option String)
    (newKey tier rawToken : String) (maxConcurrent maxActivations : Int)
    (s : Store) (rawHwid : Option String) :
    (requireAdmin cfg.adminSecret bearer secretQs = .ok ↔
      cfg.adminSecret ≠ "" ∧ credOf bearer secretQs = cfg.adminSecret) ∧
    ((licenseIssue cfg bearer secretQs newKey tier maxConcurrent maxActivations s).1.isOk = true →
      cfg.adminSecret ≠ "" ∧ credOf bearer secretQs = cfg.adminSecret) ∧
    ((tokenRevoke cfg bearer secretQs s rawToken).1.isOk = true →
      cfg.adminSecret ≠ "" ∧ credOf bearer secretQs = cfg.adminSecret) ∧
    ((tokenIntrospect cfg nowT bearer secretQs s rawToken rawHwid).isOk = true →
      cfg.adminSecret ≠ "" ∧ credOf bearer secretQs = cfg.adminSecret) ∧
    (cfg.adminSecret = "" →
      (licenseIssue cfg bearer secretQs newKey tier maxConcurrent maxActivations s).1 =
        .error ⟨500, "ADMIN_SECRET not set"⟩ ∧
      (tokenRevoke cfg bearer secretQs s rawToken).1 =
        .error ⟨500, "ADMIN_SECRET not set"⟩ ∧
      tokenIntrospect cfg nowT bearer secretQs s rawToken rawHwid =
        .error ⟨500, "ADMIN_SECRET not set"⟩) := by
  by_cases hs : cfg.adminSecret = ""
  · have hra : requireAdmin cfg.adminSecret bearer secretQs =
        .httpError 500 "ADMIN_SECRET not set" := by
      simp [requireAdmin, hs]
    refine ⟨by simp [hra]; intro hne; exact absurd hs hne, ?_, ?_, ?_, ?_⟩ <;>
      simp [licenseIssue, tokenRevoke, tokenIntrospect, hra, RouteResult.isOk]
  · by_cases hc : credOf bearer secretQs = cfg.adminSecret
    · have hra : requireAdmin cfg.adminSecret bearer secretQs = .ok := by
        simp [requireAdmin, hs, hc]
      exact ⟨by simp [hra, hs, hc], fun _ => ⟨hs, hc⟩, fun _ => ⟨hs, hc⟩,
        fun _ => ⟨hs, hc⟩, fun h => absurd h hs⟩
    · have hra : requireAdmin cfg.adminSecret bearer secretQs = .httpError 403 "Forbidden" := by
        simp [requireAdmin, hs, hc]
      refine ⟨by simp [hra, hc], ?_, ?_, ?_, fun h => absurd h hs⟩ <;>
        simp [licenseIssue, tokenRevoke, tokenIntrospect, hra, RouteResult.isOk]

/-- `_set_user_tier` only touches the users table. -/
theorem setUserTier_tokens (s : Store) (h t : String) (mw : Option Int) :
    (setUserTier s h t mw).tokens = s.tokens := by
  unfold setUserTier
  split <;> rfl

theorem setUserTier_licenses (s : Store) (h t : String) (mw : Option Int) :
    (setUserTier s h t mw).licenses = s.licenses := by
  unfold setUserTier
  split <;> rfl

theorem setUserTier_activations (s : Store) (h t : String) (mw : Option Int) :
    (setUserTier s h t mw).activations = s.activations := by
  unfold setUserTier
  split <;> rfl

/-- C9: when the outbound Gumroad license-verification call raises (a
timeout or network error), `_verify_license_if_present` reports success
and the webhook's gate lets the request proceed. -/
theorem verify_failopen_C9 (skipValidation httpxAvail : Bool)
    (licenseKey productPermalink productId : String)
    (hkey : licenseKey ≠ "") (hav : httpxAvail = true)
    (hids : productPermalink ≠ "" ∨ productId ≠ "") :
    verifyLicenseIfPresent skipValidation httpxAvail licenseKey productPermalink productId
        .raised = true ∧
    gumroadLicenseGate (verifyLicenseIfPresent skipValidation httpxAvail licenseKey
        productPermalink productId .raised) = .ok () := by
  subst hav
  by_cases hskip : skipValidation = true
  · simp [verifyLicenseIfPresent, hskip, gumroadLicenseGate]
  · have : verifyLicenseIfPresent skipValidation true licenseKey productPermalink productId
        .raised = true := by
      simp [verifyLicenseIfPresent, hskip, hkey, hids]
    exact ⟨this, by simp [this, gumroadLicenseGate]⟩

/-- C10: a key that, after trimming and uppercasing, starts with "PRO-"
(resp. "START") activates with tier pro (resp. starter) on every store,
with no KeyStore lookup influencing the outcome, and mints the freshly
generated token on every call, appending a new token row with NULL
license_key. -/
theorem legacy_keys_C10 (cfg : Config) (env : Env) (s : Store) (rawHwid rawKey : String) :
    (pyStartsWith (pyUpper (pyStrip rawKey)) "PRO-" = true →
      (licenseActivate cfg env s rawHwid rawKey).1 =
        .ok { ok := true, tier := "pro", token := env.fresh, maxConcurrent := cfg.proMaxWindows,
              downloadUrl := cfg.downloadUrlPro, addonsUrl := cfg.addonsUrl } ∧
      (licenseActivate cfg env s rawHwid rawKey).2.tokens =
        s.tokens ++ [{ token := env.fresh, licenseKey := none, hwid := pyStrip rawHwid,
                       tier := "pro", createdAt := env.now,
                       expiresAt := if cfg.tokenTTLDays > 0 then
                         some (env.now + cfg.tokenTTLDays * 86400) else none,
                       revoked := false }]) ∧
    (pyStartsWith (pyUpper (pyStrip rawKey)) "PRO-" = false →
     pyStartsWith (pyUpper (pyStrip rawKey)) "START" = true →
      (licenseActivate cfg env s rawHwid rawKey).1 =
        .ok { ok := true, tier := "starter", token := env.fresh,
              maxConcurrent := cfg.starterMaxWindows, downloadUrl := "", addonsUrl := "" } ∧
      (licenseActivate cfg env s rawHwid rawKey).2.tokens =
        s.tokens ++ [{ token := env.fresh, licenseKey := none, hwid := pyStrip rawHwid,
                       tier := "starter", createdAt := env.now,
                       expiresAt := if cfg.tokenTTLDays > 0 then
                         some (env.now + cfg.tokenTTLDays * 86400) else none,
                       revoked := false }]) := by
  constructor
  · intro hpro
    unfold licenseActivate
    simp [hpro, issueToken, setUserTier_tokens]
  · intro hpro hstart
    unfold licenseActivate
    simp [hpro, hstart, issueToken, setUserTier_tokens]

/-- Helper for branch reasoning: the conditional ledger insert of
`license_activate` never touches the token table. -/
theorem ite_store_activations_tokens (c : Prop) [Decidable c] (s : Store)
    (rows : List ActivationRow) :
    (if c then s else { s with activations := rows }).tokens = s.tokens := by
  split <;> rfl

/-- Every path of `license_activate` leaves existing token rows in place,
at most appending new rows. -/
theorem licenseActivate_tokens_extend (cfg : Config) (env : Env) (s : Store) (a b : String) :
    ∃ rest, (licenseActivate cfg env s a b).2.tokens = s.tokens ++ rest := by
  unfold licenseActivate
  dsimp only
  split
  · exact ⟨_, by simp [issueToken, setUserTier_tokens]; rfl⟩
  split
  · exact ⟨_, by simp [issueToken, setUserTier_tokens]; rfl⟩
  split
  · exact ⟨[], by simp⟩
  split
  · exact ⟨[], by simp⟩
  split
  · exact ⟨[], by simp⟩
  split
  · exact ⟨[], by simp [ite_store_activations_tokens]⟩
  · exact ⟨_, by simp [issueToken, ite_store_activations_tokens]; rfl⟩

/-- An after-the-fact tier change on a stored license key:
`UPDATE licenses SET tier=? WHERE license_key=?` (no route of main.py
performs this; it models an out-of-band KeyStore mutation). -/
def setKeyTier (s : Store) (k newTier : String) : Store :=
  { s with licenses := s.licenses.map (fun r =>
      if r.licenseKey == k then { r with tier := newTier } else r) }

/-- `_validate_token` reads only the token table, so an out-of-band key
tier change is invisible to it. -/
theorem validateToken_setKeyTier (nowT : Int) (s : Store) (k t' x y : String) :
    validateToken nowT (setKeyTier s k t') x y = validateToken nowT s x y := by
  unfold validateToken setKeyTier
  rfl

/-- The response of `license_validate` is unchanged by an out-of-band
key tier change. -/
theorem licenseValidate_resp_setKeyTier (cfg : Config) (nowT : Int) (s : Store)
    (k t' a b : String) :
    (licenseValidate cfg nowT (setKeyTier s k t') a b).1 =
      (licenseValidate cfg nowT s a b).1 := by
  unfold licenseValidate
  dsimp only
  rw [validateToken_setKeyTier]
  split <;> rfl

/-- `license_validate` never writes the token table. -/
theorem licenseValidate_tokens (cfg : Config) (nowT : Int) (s : Store) (a b : String) :
    (licenseValidate cfg nowT s a b).2.tokens = s.tokens := by
  unfold licenseValidate
  dsimp only
  split
  · rfl
  · simp [setUserTier_tokens]

/-- A successful `_validate_token` reports the tier snapshotted on the
token row itself. -/
theorem validateToken_ok_tier (nowT : Int) (s : Store) (tok h tr : String) :
    validateToken nowT s tok h = .ok tr →
    ∃ row, s.tokens.find? (fun t => t.token == tok) = some row ∧ tr = normTier row.tier := by
  rcases hf : s.tokens.find? (fun t => t.token == tok) with _ | row
  · simp [validateToken, hf]
  · simp only [validateToken, hf]
    intro hok
    refine ⟨row, rfl, ?_⟩
    by_cases h1 : row.revoked = true <;> by_cases h2 : h ≠ row.hwid <;>
      rcases h3 : expiredAt nowT row.expiresAt <;> simp [h1, h2, h3] at hok
    all_goals exact hok.symm

/-- `token_revoke` only flips the revoked flag: every other column of
every token row is untouched. -/
theorem tokenRevoke_token_fields (cfg : Config) (bearer secretQs : Option String)
    (s : Store) (rawToken : String) :
    ((tokenRevoke cfg bearer secretQs s rawToken).2).tokens.map
        (fun t => (t.token, t.licenseKey, t.hwid, t.tier, t.createdAt, t.expiresAt)) =
      s.tokens.map (fun t => (t.token, t.licenseKey, t.hwid, t.tier, t.createdAt, t.expiresAt)) := by
  unfold tokenRevoke
  split
  · rfl
  · dsimp only
    rw [List.map_map]
    refine List.map_congr_left ?_
    intro t _
    by_cases h : t.token = pyStrip rawToken <;> simp [h]

/-- `license_issue` only writes the licenses table. -/
theorem licenseIssue_tokens (cfg : Config) (bearer secretQs : Option String)
    (newKey tier : String) (mc ma : Int) (s : Store) :
    ((licenseIssue cfg bearer secretQs newKey tier mc ma s).2).tokens = s.tokens := by
  unfold licenseIssue
  split <;> rfl

/-- C5: a token's tier is fixed at issuance.  Validation reads the tier
stored on the token row; changing the key's tier afterwards does not
change the validation response; and no operation (activate, validate,
revoke, issue) rewrites the tier of an existing token row. -/
theorem token_tier_invariant_C5 (cfg : Config) (env : Env) (nowT : Int) (s : Store)
    (k newTier rawToken rawHwid a b tok h : String) (mc ma : Int)
    (bearer secretQs : Option String) :
    ((licenseValidate cfg nowT (setKeyTier s k newTier) rawToken rawHwid).1 =
      (licenseValidate cfg nowT s rawToken rawHwid).1) ∧
    (∀ tr, validateToken nowT s tok h = .ok tr →
      ∃ row, s.tokens.find? (fun t => t.token == tok) = some row ∧ tr = normTier row.tier) ∧
    (∃ rest, (licenseActivate cfg env s a b).2.tokens = s.tokens ++ rest) ∧
    ((licenseValidate cfg nowT s rawToken rawHwid).2.tokens = s.tokens) ∧
    (((tokenRevoke cfg bearer secretQs s rawToken).2).tokens.map
        (fun t => (t.token, t.licenseKey, t.hwid, t.tier, t.createdAt, t.expiresAt)) =
      s.tokens.map (fun t => (t.token, t.licenseKey, t.hwid, t.tier, t.createdAt, t.expiresAt))) ∧
    (((licenseIssue cfg bearer secretQs k newTier mc ma s).2).tokens = s.tokens) :=
  ⟨licenseValidate_resp_setKeyTier cfg nowT s k newTier rawToken rawHwid,
    fun tr => validateToken_ok_tier nowT s tok h tr,
    licenseActivate_tokens_extend cfg env s a b,
    licenseValidate_tokens cfg nowT s rawToken rawHwid,
    tokenRevoke_token_fields cfg bearer secretQs s rawToken,
    licenseIssue_tokens cfg bearer secretQs k newTier mc ma s⟩

/-! ## Concrete fixtures for counterexamples and witnesses -/

/-- A small configuration with the default window caps and TTL. -/
def cfgA : Config :=
  { freeMaxWindows := 1, starterMaxWindows := 2, proMaxWindows := 5, tokenTTLDays := 90,
    adminSecret := "secret", downloadUrlPro := "https://dl/pro",
    addonsUrl := "https://dl/addons" }

/-- A store holding a single already-revoked token row. -/
def revokedTokStore : Store :=
  { users := [], licenses := [], activations := [],
    tokens := [{ token := "T", licenseKey := none, hwid := "H", tier := "pro",
                 createdAt := 0, expiresAt := none, revoked := true }] }

/-- A store holding a single live (non-revoked) token row. -/
def oneTokStore : Store :=
  { users := [], licenses := [], activations := [],
    tokens := [{ token := "T", licenseKey := none, hwid := "H", tier := "pro",
                 createdAt := 0, expiresAt := none, revoked := false }] }

/-- C7 counterexample: revoking an already-revoked existing token reports
an updated count of 1, not 0 — the UPDATE's rowcount counts matched rows
regardless of their prior revocation state, contradicting the claim that
only a non-revoked existing token yields a non-zero count. -/
theorem token_revoke_counterexample_C7 :
    (tokenRevoke cfgA (some "secret") none revokedTokStore "T").1 =
      .ok { ok := true, updated := 1 } ∧ (1 : Int) ≠ 0 := by
  decide

/-- C7 amended: RevokeToken always succeeds and reports the number of
token rows matching the token (0 for a missing token, 1 for an existing
token whether or not it was already revoked); afterwards every matching
row is revoked. -/
theorem token_revoke_amended_C7 (cfg : Config) (bearer secretQs : Option String)
    (s : Store) (rawToken : String)
    (hok : requireAdmin cfg.adminSecret bearer secretQs = .ok) :
    ((tokenRevoke cfg bearer secretQs s rawToken).1 =
      .ok { ok := true,
            updated := ((s.tokens.filter (fun t => t.token == pyStrip rawToken)).length : Int) }) ∧
    (∀ t ∈ (tokenRevoke cfg bearer secretQs s rawToken).2.tokens,
        t.token = pyStrip rawToken → t.revoked = true) ∧
    (s.tokens.filter (fun t => t.token == pyStrip rawToken) = [] →
      (tokenRevoke cfg bearer secretQs s rawToken).1 = .ok { ok := true, updated := 0 }) := by
  unfold tokenRevoke
  rw [hok]
  dsimp only
  refine ⟨rfl, ?_, ?_⟩
  · intro t ht hteq
    rcases List.mem_map.mp ht with ⟨t0, _, hmap⟩
    by_cases h : t0.token = pyStrip rawToken
    · rw [← hmap]
      simp [h]
    · rw [← hmap] at hteq
      simp [h] at hteq
  · intro hnil
    simp [hnil]

/-- A store with a device record carrying an explicit max_windows
override of 7 and a live pro token for the same device. -/
def overrideStore : Store :=
  { users := [{ hwid := "H", tier := "free", maxWindows := some 7 }],
    licenses := [], activations := [],
    tokens := [{ token := "T", licenseKey := none, hwid := "H", tier := "pro",
                 createdAt := 0, expiresAt := none, revoked := false }] }

/-- C8 counterexample: for a device with an explicit max_windows
override of 7, the tokenless Verify path reports 7, but a successful
token-bearing Validate call for the same device reports no max_windows
key at all — the override resolution is not reported on the Validate
path, so the two paths are not identical as claimed. -/
theorem tier_override_counterexample_C8 :
    (verify cfgA overrideStore "H").maxWindows = 7 ∧
    (licenseValidate cfgA 5 overrideStore "T" "H").1.ok = true ∧
    (licenseValidate cfgA 5 overrideStore "T" "H").1.tier = some "pro" ∧
    (licenseValidate cfgA 5 overrideStore "T" "H").1.maxWindows = none := by
  decide

/-- After `_set_user_tier(hwid, tier)` with no max_windows argument, a
device row that was findable before is still findable, with only its
tier possibly rewritten. -/
theorem setUserTier_find_of_found (s : Store) (hw t h0 : String) (u : UserRow)
    (hu : s.users.find? (fun x => x.hwid == h0) = some u) :
    (setUserTier s hw t none).users.find? (fun x => x.hwid == h0) =
      some (if u.hwid == hw then { u with tier := t } else u) := by
  have hpu := List.find?_some hu
  have hmem : u ∈ s.users := List.mem_of_find?_eq_some hu
  unfold setUserTier
  rcases hfind : s.users.find? (fun x => x.hwid == hw) with _ | v <;> rw [hfind] <;> dsimp only
  · have hnp := List.find?_eq_none.mp hfind u hmem
    have hne : (u.hwid == hw) = false := by simpa using hnp
    rw [List.find?_append, hu]
    simp [hne]
  · rw [List.find?_map]
    have hpred : ((fun x : UserRow => x.hwid == h0) ∘ (fun x : UserRow =>
        if x.hwid == hw then { x with tier := t } else x)) =
        (fun x : UserRow => x.hwid == h0) := by
      funext x
      by_cases hx : x.hwid = hw <;> simp [hx]
    rw [hpred, hu]
    rfl

/-- C8 amended: an explicit per-device max_windows override always wins
on the Verify path, over the tier default caps and over any token tier;
the Validate path emits no max_windows key at all, but it preserves the
stored override (it refreshes only the tier), so Verify before and after
any Validate call reports the same override. -/
theorem tier_override_amended_C8 (cfg : Config) (nowT : Int) (s : Store)
    (rawTok rawHwid rawH0 : String) (u : UserRow) (w : Int)
    (hu : s.users.find? (fun x => x.hwid == pyStrip rawH0) = some u)
    (hw : u.maxWindows = some w) :
    (verify cfg s rawH0 = { tier := pyLower u.tier, maxWindows := w }) ∧
    ((licenseValidate cfg nowT s rawTok rawHwid).1.maxWindows = none) ∧
    ((verify cfg (licenseValidate cfg nowT s rawTok rawHwid).2 rawH0).maxWindows = w) := by
  refine ⟨?_, ?_, ?_⟩
  · unfold verify
    simp [hu, hw]
  · unfold licenseValidate
    dsimp only
    split <;> rfl
  · unfold licenseValidate
    dsimp only
    rcases hv : validateToken nowT s (pyStrip rawTok) (pyStrip rawHwid) with r | tier
    · dsimp only
      unfold verify
      simp [hu, hw]
    · dsimp only
      have hfind := setUserTier_find_of_found s (pyStrip rawHwid) tier (pyStrip rawH0) u hu
      by_cases hcase : u.hwid = pyStrip rawHwid <;>
        simp [verify, hfind, hcase, hw]

/-- The empty store (fresh database). -/
def emptyStore : Store := { users := [], licenses := [], activations := [], tokens := [] }

/-- C3 counterexample: a (key, hwid) pair that already holds a live
token is not always handed that token back.  With the legacy-prefix key
"PRO-KEY", the first Activate call mints token "T1" for hwid "H"; the
second identical call returns a brand-new token "T2" instead of "T1". -/
theorem reactivation_counterexample_C3 :
    (licenseActivate cfgA ⟨100, "T1"⟩ emptyStore "H" "PRO-KEY").1 =
      .ok { ok := true, tier := "pro", token := "T1", maxConcurrent := 5,
            downloadUrl := "https://dl/pro", addonsUrl := "https://dl/addons" } ∧
    (licenseActivate cfgA ⟨200, "T2"⟩
        (licenseActivate cfgA ⟨100, "T1"⟩ emptyStore "H" "PRO-KEY").2 "H" "PRO-KEY").1 =
      .ok { ok := true, tier := "pro", token := "T2", maxConcurrent := 5,
            downloadUrl := "https://dl/pro", addonsUrl := "https://dl/addons" } ∧
    ("T2" : String) ≠ "T1" := by
  decide

/-- C3 amended: for a stored, non-revoked, non-legacy-prefix key whose
(key, hwid) pair has an activation row and a live token, re-activation
returns the newest live token for that pair and leaves the entire store
unchanged, so arbitrary repetition keeps returning the same token. -/
theorem reactivation_amended_C3 (cfg : Config) (env : Env) (s : Store)
    (rawHwid rawKey : String) (lic : LicenseRow) (trow : TokenRow)
    (hnp : pyStartsWith (pyUpper (pyStrip rawKey)) "PRO-" = false)
    (hns : pyStartsWith (pyUpper (pyStrip rawKey)) "START" = false)
    (hfind : findLicense s (pyUpper (pyStrip rawKey)) = some lic)
    (hrev : lic.revoked = false)
    (hact : hasActivation s (pyUpper (pyStrip rawKey)) (pyStrip rawHwid) = true)
    (htok : latestTokenFor s.tokens (pyUpper (pyStrip rawKey)) (pyStrip rawHwid) = some trow) :
    ((licenseActivate cfg env s rawHwid rawKey).1 =
      .ok { ok := true, tier := normTier lic.tier, token := trow.token,
            maxConcurrent :=
              if normTier lic.tier = "pro" then pyOrInt lic.maxConcurrent cfg.proMaxWindows
              else if normTier lic.tier = "starter" then
                pyOrInt lic.maxConcurrent cfg.starterMaxWindows
              else cfg.freeMaxWindows,
            downloadUrl := if normTier lic.tier = "pro" then cfg.downloadUrlPro else "",
            addonsUrl := if normTier lic.tier = "pro" then cfg.addonsUrl else "" }) ∧
    ((licenseActivate cfg env s rawHwid rawKey).2 = s) ∧
    (∀ env' : Env,
      (licenseActivate cfg env' (licenseActivate cfg env s rawHwid rawKey).2 rawHwid rawKey).1 =
        (licenseActivate cfg env s rawHwid rawKey).1) := by
  have hmain : licenseActivate cfg env s rawHwid rawKey =
      (.ok { ok := true, tier := normTier lic.tier, token := trow.token,
             maxConcurrent :=
               if normTier lic.tier = "pro" then pyOrInt lic.maxConcurrent cfg.proMaxWindows
               else if normTier lic.tier = "starter" then
                 pyOrInt lic.maxConcurrent cfg.starterMaxWindows
               else cfg.freeMaxWindows,
             downloadUrl := if normTier lic.tier = "pro" then cfg.downloadUrlPro else "",
             addonsUrl := if normTier lic.tier = "pro" then cfg.addonsUrl else "" }, s) := by
    unfold licenseActivate
    simp [hnp, hns, hfind, hrev, hact, htok]
  have hmain' : ∀ e : Env, licenseActivate cfg e s rawHwid rawKey =
      (.ok { ok := true, tier := normTier lic.tier, token := trow.token,
             maxConcurrent :=
               if normTier lic.tier = "pro" then pyOrInt lic.maxConcurrent cfg.proMaxWindows
               else if normTier lic.tier = "starter" then
                 pyOrInt lic.maxConcurrent cfg.starterMaxWindows
               else cfg.freeMaxWindows,
             downloadUrl := if normTier lic.tier = "pro" then cfg.downloadUrlPro else "",
             addonsUrl := if normTier lic.tier = "pro" then cfg.addonsUrl else "" }, s) := by
    intro e
    unfold licenseActivate
    simp [hnp, hns, hfind, hrev, hact, htok]
  refine ⟨by rw [hmain], by rw [hmain], ?_⟩
  intro env'
  rw [hmain, hmain' env']

/-- The conditional ledger insert never touches the licenses table. -/
theorem ite_store_activations_licenses (c : Prop) [Decidable c] (s : Store)
    (rows : List ActivationRow) :
    (if c then s else { s with activations := rows }).licenses = s.licenses := by
  split <;> rfl

/-- Every path of `license_activate` leaves the licenses table unchanged. -/
theorem licenseActivate_licenses (cfg : Config) (env : Env) (s : Store) (a b : String) :
    (licenseActivate cfg env s a b).2.licenses = s.licenses := by
  unfold licenseActivate
  dsimp only
  split
  · simp [issueToken, setUserTier_licenses]
  split
  · simp [issueToken, setUserTier_licenses]
  split
  · rfl
  split
  · rfl
  split
  · rfl
  split
  · simp [ite_store_activations_licenses]
  · simp [issueToken, ite_store_activations_licenses]

/-- Ledger membership over an appended batch of rows. -/
theorem hasActivationL_append (A B : List ActivationRow) (k h : String) :
    hasActivationL (A ++ B) k h = (hasActivationL A k h || hasActivationL B k h) := by
  unfold hasActivationL
  rw [List.find?_append]
  rcases hA : A.find? (fun r => r.licenseKey == k && r.hwid == h) with _ | r <;> simp [hA]

/-- Filtering a key's ledger rows distributes over append. -/
theorem activationsForL_append (A B : List ActivationRow) (k : String) :
    activationsForL (A ++ B) k = activationsForL A k ++ activationsForL B k := by
  unfold activationsForL
  exact List.filter_append A B

/-- A key with no ledger rows has no (key, hwid) activation. -/
theorem hasActivationL_eq_false (A : List ActivationRow) (k h : String)
    (hnil : activationsForL A k = []) : hasActivationL A k h = false := by
  unfold hasActivationL
  rcases hf : A.find? (fun r => r.licenseKey == k && r.hwid == h) with _ | r
  · simp [hf]
  · exfalso
    have hp := List.find?_some hf
    have hmem := List.mem_of_find?_eq_some hf
    have hk : (r.licenseKey == k) = true := by
      simp only [Bool.and_eq_true] at hp
      exact hp.1
    have hrmem : r ∈ activationsForL A k := by
      unfold activationsForL
      exact List.mem_filter.mpr ⟨hmem, hk⟩
    rw [hnil] at hrmem
    simp at hrmem

/-- One Activate call for a fresh hwid while the cap is not yet reached:
it succeeds and appends exactly one ledger row for the key. -/
theorem licenseActivate_fresh_step (cfg : Config) (env : Env) (s : Store)
    (rawHwid rawKey key h : String) (lic : LicenseRow)
    (hkey : pyUpper (pyStrip rawKey) = key) (hh : pyStrip rawHwid = h)
    (hnp : pyStartsWith key "PRO-" = false) (hns : pyStartsWith key "START" = false)
    (hfind : findLicense s key = some lic) (hrev : lic.revoked = false)
    (hact : hasActivation s key h = false)
    (hcap : ((activationsFor s key).length : Int) < pyOrInt lic.maxActivations 1) :
    ((licenseActivate cfg env s rawHwid rawKey).1.isOk = true) ∧
    ((licenseActivate cfg env s rawHwid rawKey).2.activations =
      s.activations ++ [{ licenseKey := key, hwid := h }]) ∧
    ((licenseActivate cfg env s rawHwid rawKey).2.licenses = s.licenses) := by
  have hle : ¬(pyOrInt lic.maxActivations 1 ≤ ((activationsFor s key).length : Int)) :=
    not_le.mpr hcap
  unfold licenseActivate
  simp only [hkey, hh, hnp, hns, hfind, hrev, hact, hle]
  simp [issueToken]
  rcases hl : latestTokenFor s.tokens key h with _ | tr <;> simp [hl, RouteResult.isOk]

/-- One Activate call for a fresh hwid once the cap is reached: the call
fails with activation_limit_reached and the store is untouched. -/
theorem licenseActivate_limit_step (cfg : Config) (env : Env) (s : Store)
    (rawHwid rawKey key h : String) (lic : LicenseRow)
    (hkey : pyUpper (pyStrip rawKey) = key) (hh : pyStrip rawHwid = h)
    (hnp : pyStartsWith key "PRO-" = false) (hns : pyStartsWith key "START" = false)
    (hfind : findLicense s key = some lic) (hrev : lic.revoked = false)
    (hact : hasActivation s key h = false)
    (hcap : pyOrInt lic.maxActivations 1 ≤ ((activationsFor s key).length : Int)) :
    licenseActivate cfg env s rawHwid rawKey =
      (.error ⟨403, "activation_limit_reached"⟩, s) := by
  unfold licenseActivate
  simp [hkey, hh, hnp, hns, hfind, hrev, hact, hcap]

/-- Ledger membership for a single-row ledger. -/
theorem hasActivationL_singleton (row : ActivationRow) (k h : String) :
    hasActivationL [row] k h = (row.licenseKey == k && row.hwid == h) := by
  cases hp : (row.licenseKey == k && row.hwid == h) <;>
    simp only [hasActivationL, List.find?] <;> rw [hp] <;> rfl

/-- Running a batch of Activate calls for pairwise-distinct fresh hwids
that fits under the activation cap: every call succeeds, and the ledger
gains exactly one row per call, in order. -/
theorem activateMany_all_ok (cfg : Config) (rawKey key : String)
    (hkey : pyUpper (pyStrip rawKey) = key)
    (hnp : pyStartsWith key "PRO-" = false) (hns : pyStartsWith key "START" = false) :
    ∀ (calls : List (Env × String)) (s : Store) (lic : LicenseRow),
      findLicense s key = some lic → lic.revoked = false →
      (∀ c ∈ calls, hasActivation s key (pyStrip c.2) = false) →
      (calls.map (fun c => pyStrip c.2)).Nodup →
      (((activationsFor s key).length : Int) + calls.length ≤ pyOrInt lic.maxActivations 1) →
      (∀ r ∈ (activateMany cfg rawKey calls s).2, r.isOk = true) ∧
      ((activateMany cfg rawKey calls s).1.activations =
        s.activations ++ calls.map (fun c =>
          { licenseKey := key, hwid := pyStrip c.2 : ActivationRow })) ∧
      ((activateMany cfg rawKey calls s).1.licenses = s.licenses) := by
  intro calls
  induction calls with
  | nil =>
      intro s lic hfind hrev hfresh hnodup hcap
      refine ⟨?_, ?_, ?_⟩ <;> simp [activateMany]
  | cons c rest ih =>
      intro s lic hfind hrev hfresh hnodup hcap
      have hactc : hasActivation s key (pyStrip c.2) = false := hfresh c (by simp)
      have hcapc : ((activationsFor s key).length : Int) < pyOrInt lic.maxActivations 1 := by
        simp only [List.length_cons] at hcap
        push_cast at hcap
        omega
      obtain ⟨hok1, hacts1, hlics1⟩ :=
        licenseActivate_fresh_step cfg c.1 s c.2 rawKey key (pyStrip c.2) lic hkey rfl hnp hns
          hfind hrev hactc hcapc
      have hnodup' : (rest.map (fun x => pyStrip x.2)).Nodup :=
        (List.nodup_cons.mp (by simpa using hnodup)).2
      have hnotmem : pyStrip c.2 ∉ rest.map (fun x => pyStrip x.2) :=
        (List.nodup_cons.mp (by simpa using hnodup)).1
      have hfind' : findLicense (licenseActivate cfg c.1 s c.2 rawKey).2 key = some lic := by
        unfold findLicense at hfind ⊢
        rw [hlics1]
        exact hfind
      have hactsFor' : activationsFor (licenseActivate cfg c.1 s c.2 rawKey).2 key =
          activationsFor s key ++ [{ licenseKey := key, hwid := pyStrip c.2 }] := by
        unfold activationsFor
        rw [hacts1, activationsForL_append]
        simp [activationsForL]
      have hfresh' : ∀ d ∈ rest,
          hasActivation (licenseActivate cfg c.1 s c.2 rawKey).2 key (pyStrip d.2) = false := by
        intro d hd
        unfold hasActivation
        rw [hacts1, hasActivationL_append]
        have h1 : hasActivationL s.activations key (pyStrip d.2) = false :=
          hfresh d (by simp [hd])
        have hne : pyStrip c.2 ≠ pyStrip d.2 := by
          intro heq
          exact hnotmem (heq ▸ List.mem_map_of_mem _ hd)
        have h2 : hasActivationL [{ licenseKey := key, hwid := pyStrip c.2 }] key
            (pyStrip d.2) = false := by
          rw [hasActivationL_singleton]
          simp [hne]
        rw [h1, h2]
        rfl
      have hcap' : ((activationsFor (licenseActivate cfg c.1 s c.2 rawKey).2 key).length : Int) +
          rest.length ≤ pyOrInt lic.maxActivations 1 := by
        rw [hactsFor']
        simp only [List.length_append, List.length_cons, List.length_nil] at hcap ⊢
        push_cast at hcap ⊢
        omega
      obtain ⟨hoks, hacts, hlics⟩ := ih (licenseActivate cfg c.1 s c.2 rawKey).2 lic
        hfind' hrev hfresh' hnodup' hcap'
      refine ⟨?_, ?_, ?_⟩
      · intro r hr
        simp only [activateMany] at hr
        rcases List.mem_cons.mp hr with h | h
        · rw [h]
          exact hok1
        · exact hoks r h
      · simp only [activateMany]
        rw [hacts, hacts1]
        simp [List.append_assoc]
      · simp only [activateMany]
        rw [hlics, hlics1]

/-- A stored key whose code itself starts with the legacy prefix "PRO-"
(issuable via `POST /license/issue` with prefix "PRO"), with
max_activations = 1. -/
def proPrefixKeyStore : Store :=
  { users := [], licenses := [{ licenseKey := "PRO-AAAAA-BBBBB-CCCCC", tier := "pro",
                                maxConcurrent := 5, maxActivations := 1, revoked := false }],
    activations := [], tokens := [] }

/-- C1 counterexample: a stored license key with max_activations = 1
whose code starts with "PRO-" admits a second distinct hwid: the legacy
prefix branch runs before the KeyStore lookup, so the cap is never
enforced and the (N+1)th distinct hwid succeeds instead of failing with
activation_limit_reached. -/
theorem activation_cap_counterexample_C1 :
    (licenseActivate cfgA ⟨100, "T1"⟩ proPrefixKeyStore "h1" "PRO-AAAAA-BBBBB-CCCCC").1.isOk
      = true ∧
    (licenseActivate cfgA ⟨200, "T2"⟩
        (licenseActivate cfgA ⟨100, "T1"⟩ proPrefixKeyStore "h1" "PRO-AAAAA-BBBBB-CCCCC").2
        "h2" "PRO-AAAAA-BBBBB-CCCCC").1.isOk = true ∧
    ("h1" : String) ≠ "h2" := by
  decide

/-- C1 amended: for a stored, non-revoked key whose code does not match
the legacy prefixes "PRO-"/"START", starting from a ledger with no rows
for the key, a batch of N = max_activations Activate calls with distinct
hwids all succeed, and a further Activate from yet another distinct hwid
fails with activation_limit_reached leaving the store unchanged. -/
theorem activation_cap_amended_C1 (cfg : Config) (rawKey key : String)
    (calls : List (Env × String)) (envX : Env) (hX : String) (s : Store) (lic : LicenseRow)
    (hkey : pyUpper (pyStrip rawKey) = key)
    (hnp : pyStartsWith key "PRO-" = false) (hns : pyStartsWith key "START" = false)
    (hfind : findLicense s key = some lic) (hrev : lic.revoked = false)
    (hinit : activationsFor s key = [])
    (hnodup : ((calls.map (fun c => pyStrip c.2)) ++ [pyStrip hX]).Nodup)
    (hlen : (calls.length : Int) = pyOrInt lic.maxActivations 1) :
    (∀ r ∈ (activateMany cfg rawKey calls s).2, r.isOk = true) ∧
    licenseActivate cfg envX (activateMany cfg rawKey calls s).1 hX rawKey =
      (.error ⟨403, "activation_limit_reached"⟩, (activateMany cfg rawKey calls s).1) := by
  have hM : (calls.map (fun c => pyStrip c.2)).Nodup := (List.nodup_append.mp hnodup).1
  have hdisj := (List.nodup_append.mp hnodup).2.2
  have hxnot : pyStrip hX ∉ calls.map (fun c => pyStrip c.2) := fun hmem =>
    hdisj hmem (by simp)
  have hinitL : activationsForL s.activations key = [] := hinit
  have hfresh : ∀ c ∈ calls, hasActivation s key (pyStrip c.2) = false := fun c _ =>
    hasActivationL_eq_false s.activations key (pyStrip c.2) hinitL
  have hcap0 : ((activationsFor s key).length : Int) + calls.length ≤
      pyOrInt lic.maxActivations 1 := by
    rw [hinit]
    simpa using le_of_eq hlen
  obtain ⟨hoks, hacts, hlics⟩ := activateMany_all_ok cfg rawKey key hkey hnp hns calls s lic
    hfind hrev hfresh hM hcap0
  have hfindN : findLicense (activateMany cfg rawKey calls s).1 key = some lic := by
    unfold findLicense at hfind ⊢
    rw [hlics]
    exact hfind
  have hrowsAll : ∀ row ∈ calls.map (fun c =>
      ({ licenseKey := key, hwid := pyStrip c.2 } : ActivationRow)),
      (row.licenseKey == key) = true := by
    intro row hrow
    rcases List.mem_map.mp hrow with ⟨c, _, hc⟩
    rw [← hc]
    simp
  have hActsN : activationsFor (activateMany cfg rawKey calls s).1 key =
      calls.map (fun c => ({ licenseKey := key, hwid := pyStrip c.2 } : ActivationRow)) := by
    unfold activationsFor
    rw [hacts, activationsForL_append, hinitL]
    unfold activationsForL
    simpa using List.filter_eq_self.mpr hrowsAll
  have hactX : hasActivation (activateMany cfg rawKey calls s).1 key (pyStrip hX) = false := by
    unfold hasActivation
    rw [hacts, hasActivationL_append]
    have h1 : hasActivationL s.activations key (pyStrip hX) = false :=
      hasActivationL_eq_false s.activations key (pyStrip hX) hinitL
    have h2 : hasActivationL (calls.map (fun c =>
        ({ licenseKey := key, hwid := pyStrip c.2 } : ActivationRow))) key
        (pyStrip hX) = false := by
      unfold hasActivationL
      rw [List.find?_eq_none.mpr ?_]
      · rfl
      · intro row hrow
        rcases List.mem_map.mp hrow with ⟨c, hcmem, hc⟩
        rw [← hc]
        have hne : pyStrip c.2 ≠ pyStrip hX := by
          intro heq
          exact hxnot (heq ▸ List.mem_map_of_mem _ hcmem)
        simp [hne]
    rw [h1, h2]
    rfl
  have hcapN : pyOrInt lic.maxActivations 1 ≤
      ((activationsFor (activateMany cfg rawKey calls s).1 key).length : Int) := by
    rw [hActsN]
    simp only [List.length_map]
    exact le_of_eq hlen.symm
  exact ⟨hoks, licenseActivate_limit_step cfg envX (activateMany cfg rawKey calls s).1 hX
    rawKey key (pyStrip hX) lic hkey rfl hnp hns hfindN hrev hactX hcapN⟩

/-- A configuration with no admin secret configured. -/
def cfgNoSecret : Config :=
  { freeMaxWindows := 1, starterMaxWindows := 2, proMaxWindows := 5, tokenTTLDays := 90,
    adminSecret := "", downloadUrlPro := "https://dl/pro", addonsUrl := "https://dl/addons" }

/-- A stored non-legacy license key with max_activations = 1. -/
def licGL : LicenseRow :=
  { licenseKey := "GL-AAAAA-BBBBB-CCCCC", tier := "pro", maxConcurrent := 5,
    maxActivations := 1, revoked := false }

/-- The live token issued to ("GL-AAAAA-BBBBB-CCCCC", "h1"). -/
def tokRow1 : TokenRow :=
  { token := "TOK1", licenseKey := some "GL-AAAAA-BBBBB-CCCCC", hwid := "h1", tier := "pro",
    createdAt := 50, expiresAt := none, revoked := false }

/-- A store where "h1" has already activated the GL key and holds a
live token. -/
def glKeyStore : Store :=
  { users := [], licenses := [licGL],
    activations := [{ licenseKey := "GL-AAAAA-BBBBB-CCCCC", hwid := "h1" }],
    tokens := [tokRow1] }

/-- A store holding only the GL key, with an empty ledger. -/
def glFreshStore : Store :=
  { users := [], licenses := [licGL], activations := [], tokens := [] }

/-- C2 witness: concrete run through the hwid-mismatch branch. -/
theorem validate_check_order_C2_witness :
    validateToken 5 oneTokStore "T" "X" = .err "hwid_mismatch" := by
  have h := (validate_check_order_C2 5 oneTokStore "T" "X").2
    { token := "T", licenseKey := none, hwid := "H", tier := "pro",
      createdAt := 0, expiresAt := none, revoked := false } (by decide)
  exact h.2.1.mpr (by decide)

/-- C5 witness: a concrete successful validation reports exactly the
tier stored on the token row. -/
theorem token_tier_invariant_C5_witness :
    ∃ row, oneTokStore.tokens.find? (fun t => t.token == "T") = some row ∧
      "pro" = normTier row.tier := by
  have h := (token_tier_invariant_C5 cfgA ⟨0, "F"⟩ 5 oneTokStore "K" "newtier" "T" "H"
    "a" "b" "T" "H" 5 1 (some "secret") none).2.1
  exact h "pro" (by decide)

/-- C6 witness: with no admin secret configured, a concrete issue call
fails with the 500 server error. -/
theorem admin_gate_C6_witness :
    (licenseIssue cfgNoSecret (some "x") none "K" "pro" 5 1 emptyStore).1 =
      .error ⟨500, "ADMIN_SECRET not set"⟩ := by
  have h := (admin_gate_C6 cfgNoSecret 0 (some "x") none "K" "pro" "T" 5 1 emptyStore
    none).2.2.2.2 rfl
  exact h.1

/-- C7 witness: revoking a concrete live token succeeds with count 1. -/
theorem token_revoke_amended_C7_witness :
    (tokenRevoke cfgA (some "secret") none oneTokStore "T").1 =
      .ok { ok := true, updated := 1 } := by
  have h := (token_revoke_amended_C7 cfgA (some "secret") none oneTokStore "T" (by decide)).1
  exact h.trans (by decide)

/-- C8 witness: the override of 7 wins on Verify, Validate reports no
max_windows, and Verify still reports 7 after Validate. -/
theorem tier_override_amended_C8_witness :
    verify cfgA overrideStore "H" = { tier := "free", maxWindows := 7 } ∧
    (licenseValidate cfgA 5 overrideStore "T" "H").1.maxWindows = none ∧
    (verify cfgA (licenseValidate cfgA 5 overrideStore "T" "H").2 "H").maxWindows = 7 := by
  have h := tier_override_amended_C8 cfgA 5 overrideStore "T" "H" "H"
    { hwid := "H", tier := "free", maxWindows := some 7 } 7 (by decide) rfl
  exact ⟨h.1.trans (by decide), h.2.1, h.2.2⟩

/-- C9 witness: a concrete raised network call is accepted. -/
theorem verify_failopen_C9_witness :
    verifyLicenseIfPresent false true "K" "pl" "" .raised = true ∧
    gumroadLicenseGate (verifyLicenseIfPresent false true "K" "pl" "" .raised) = .ok () :=
  verify_failopen_C9 false true "K" "pl" "" (by decide) rfl (Or.inl (by decide))

/-- C10 witness: concrete "pro-xyz" and "starter99" keys activate as
pro and starter on the empty store, minting the fresh token. -/
theorem legacy_keys_C10_witness :
    (licenseActivate cfgA ⟨100, "T1"⟩ emptyStore "H" " pro-xyz ").1 =
      .ok { ok := true, tier := "pro", token := "T1", maxConcurrent := 5,
            downloadUrl := "https://dl/pro", addonsUrl := "https://dl/addons" } ∧
    (licenseActivate cfgA ⟨100, "T1"⟩ emptyStore "H" "starter99").1 =
      .ok { ok := true, tier := "starter", token := "T1", maxConcurrent := 2,
            downloadUrl := "", addonsUrl := "" } :=
  ⟨((legacy_keys_C10 cfgA ⟨100, "T1"⟩ emptyStore "H" " pro-xyz ").1 (by decide)).1,
   ((legacy_keys_C10 cfgA ⟨100, "T1"⟩ emptyStore "H" "starter99").2 (by decide) (by decide)).1⟩

/-- C3 witness: re-activating "h1" on the GL key returns the stored
token TOK1 (not the fresh "TFRESH") and leaves the store unchanged. -/
theorem reactivation_amended_C3_witness :
    (licenseActivate cfgA ⟨100, "TFRESH"⟩ glKeyStore "h1" "GL-AAAAA-BBBBB-CCCCC").1 =
      .ok { ok := true, tier := "pro", token := "TOK1", maxConcurrent := 5,
            downloadUrl := "https://dl/pro", addonsUrl := "https://dl/addons" } ∧
    (licenseActivate cfgA ⟨100, "TFRESH"⟩ glKeyStore "h1" "GL-AAAAA-BBBBB-CCCCC").2 =
      glKeyStore := by
  have h := reactivation_amended_C3 cfgA ⟨100, "TFRESH"⟩ glKeyStore "h1"
    "GL-AAAAA-BBBBB-CCCCC" licGL tokRow1 (by decide) (by decide) (by decide) (by decide)
    (by decide) (by decide)
  exact ⟨h.1.trans (by decide), h.2.1⟩

/-- C1 witness: with max_activations = 1, after "h1" activates the GL
key, a concrete Activate from "h2" fails with activation_limit_reached
and the store is unchanged. -/
theorem activation_cap_amended_C1_witness :
    licenseActivate cfgA ⟨200, "T2"⟩
        (activateMany cfgA "GL-AAAAA-BBBBB-CCCCC" [(⟨100, "T1"⟩, "h1")] glFreshStore).1
        "h2" "GL-AAAAA-BBBBB-CCCCC" =
      (.error ⟨403, "activation_limit_reached"⟩,
        (activateMany cfgA "GL-AAAAA-BBBBB-CCCCC" [(⟨100, "T1"⟩, "h1")] glFreshStore).1) :=
  (activation_cap_amended_C1 cfgA "GL-AAAAA-BBBBB-CCCCC" "GL-AAAAA-BBBBB-CCCCC"
    [(⟨100, "T1"⟩, "h1")] ⟨200, "T2"⟩ "h2" glFreshStore licGL (by decide) (by decide)
    (by decide) (by decide) (by decide) (by decide) (by decide) (by decide)).2

end GlassServer
